import Mathlib

/-!
Verification of the BioData Catalyst ingest pipeline scripts
(process.py, process_localdir_to_aws.py, process_directory.py)
against their natural-language specification.

The Python sources are shallowly embedded: byte strings become
List Nat, the external hashlib.md5 primitive is an explicit function
parameter (raw 16-byte digest), the manifest file is an explicit
file-state record with seek / truncate / write operations, and the
cloud providers are oracles passed as arguments.
-/

namespace BdcatIngest

/-! ## Basic string helpers (hex encoding, dash test, base64 alphabet) -/

/-- Lowercase hex digit, as produced by hashlib hexdigest. -/
def hexDigit (n : Nat) : Char :=
  if n < 10 then Char.ofNat (48 + n) else Char.ofNat (97 + (n - 10))

/-- Two lowercase hex characters of one byte. -/
def byteToHexChars (b : Nat) : List Char :=
  [hexDigit (b / 16 % 16), hexDigit (b % 16)]

/-- hashlib hexdigest of a raw digest byte list. -/
def bytesToHex (bs : List Nat) : String :=
  String.mk ((bs.map byteToHexChars).flatten)

/-- True when the string has no dash character, mirroring the
Python test that a returned ETag is not a composite multipart tag. -/
def dashFree (s : String) : Bool :=
  s.data.all (fun c => c != '-')

theorem hexDigit_ne_dash : ∀ n, n < 16 → hexDigit n ≠ '-' := by decide

theorem byteToHexChars_dashFree (b : Nat) :
    ∀ c ∈ byteToHexChars b, c ≠ '-' := by
  intro c hc
  simp only [byteToHexChars, List.mem_cons, List.mem_singleton] at hc
  rcases hc with h | h | h
  · subst h; exact hexDigit_ne_dash _ (Nat.mod_lt _ (by decide))
  · subst h; exact hexDigit_ne_dash _ (Nat.mod_lt _ (by decide))
  · cases h

/-- A hex digest string never contains a dash. -/
theorem bytesToHex_dashFree (bs : List Nat) : dashFree (bytesToHex bs) = true := by
  simp only [dashFree, bytesToHex, List.all_eq_true]
  intro c hc
  simp only [String.mk, List.mem_flatten] at hc
  obtain ⟨l, hl, hcl⟩ := hc
  simp only [List.mem_map] at hl
  obtain ⟨b, _, rfl⟩ := hl
  simpa using byteToHexChars_dashFree b c hcl

/-- Standard base64 alphabet character (with padding), as produced by
base64.b64encode: no dash occurs. -/
def isB64Char (c : Char) : Bool :=
  (65 ≤ c.toNat && c.toNat ≤ 90) || (97 ≤ c.toNat && c.toNat ≤ 122) ||
  (48 ≤ c.toNat && c.toNat ≤ 57) || c == '+' || c == '/' || c == '='

/-- A well-formed base64 string (such as a provider-reported
base64 md5 hash). -/
def isB64 (s : String) : Bool :=
  s.data.all isB64Char

theorem isB64Char_ne_dash (c : Char) (h : isB64Char c = true) : c ≠ '-' := by
  intro hc
  subst hc
  simp [isB64Char] at h

theorem isB64_dashFree (s : String) (h : isB64 s = true) : dashFree s = true := by
  simp only [isB64, List.all_eq_true] at h
  simp only [dashFree, List.all_eq_true]
  intro c hc
  simpa using isB64Char_ne_dash c (h c hc)

/-- Hex digit characters only (used to state that a value is a plain
hex digest rather than a base64 one). -/
def isHexChar (c : Char) : Bool :=
  (48 ≤ c.toNat && c.toNat ≤ 57) || (97 ≤ c.toNat && c.toNat ≤ 102)

def isHexString (s : String) : Bool :=
  s.data.all isHexChar

/-- Python str.startswith, via a structural list comparison. -/
def strStarts (s p : String) : Bool :=
  p.data.isPrefixOf s.data

/-- Python str.split with a one-character separator (empty segments
preserved). -/
def splitOnChar (sep : Char) : List Char → List (List Char)
  | [] => [[]]
  | c :: rest =>
      if c = sep then [] :: splitOnChar sep rest
      else
        match splitOnChar sep rest with
        | [] => [[c]]
        | g :: gs => (c :: g) :: gs

def splitSlash (s : String) : List String :=
  (splitOnChar '/' s.data).map String.mk

/-- os.path.basename for the slash-separated paths this pipeline uses. -/
def basename (s : String) : String :=
  (splitSlash s).getLastD ""

/-- Python s[1:-1], used to strip the quotes around a returned ETag. -/
def stripQuotes (s : String) : String :=
  String.mk ((s.data.drop 1).dropLast)

/-! ## Digest Engine: calculate_s3_md5sum

The Python loop reads chunk_size bytes at a time and collects one md5
object per chunk.  hashlib.md5 is abstracted as a parameter
md5 : List Nat → List Nat returning the raw 16-byte digest. -/

/-- The read loop of calculate_s3_md5sum: read(chunkSize) until an
empty read (an empty file or a zero chunk size stops at once). -/
def readChunks (file : List Nat) (chunkSize : Nat) : List (List Nat) :=
  if h : chunkSize = 0 ∨ file = [] then []
  else (file.take chunkSize) :: readChunks (file.drop chunkSize) chunkSize
termination_by file.length
decreasing_by
  push_neg at h
  simp only [List.length_drop]
  exact Nat.sub_lt (List.length_pos.mpr h.2) (Nat.pos_of_ne_zero h.1)

/-- calculate_s3_md5sum from process.py (identical in
process_directory.py): the chunked provider-A entity-tag algorithm,
for a readable local file given as its byte content. -/
def calculate_s3_md5sum (md5 : List Nat → List Nat) (file : List Nat)
    (chunkSize : Nat) : String :=
  let md5s := readChunks file chunkSize
  if md5s.length < 1 then bytesToHex (md5 [])
  else if md5s.length = 1 then bytesToHex (md5 (md5s.headD []))
  else bytesToHex (md5 ((md5s.map md5).flatten)) ++ "-" ++ toString md5s.length

/-- The module-level threshold of process_localdir_to_aws.py. -/
def boto_multipart_threshold : Nat := 64 * 1024 * 1024

/-- calculate_md5sum: streaming whole-file md5, hex encoded. -/
def calculate_md5sum (md5 : List Nat → List Nat) (file : List Nat) : String :=
  bytesToHex (md5 file)

/-- calculate_s3_md5sum from process_localdir_to_aws.py: files below
the 64 MiB threshold get the plain whole-file digest
(calculate_md5sum); larger files run the same chunked loop as
process.py. -/
def localdir_calculate_s3_md5sum (md5 : List Nat → List Nat) (file : List Nat)
    (chunkSize : Nat) : String :=
  if file.length < boto_multipart_threshold then calculate_md5sum md5 file
  else calculate_s3_md5sum md5 file chunkSize

/-! Spec-side description of the provider-A tag (§4.1 of the spec):
split into ceiling(len/chunk) chunks by position, then the
zero / one / many chunk cases. -/

/-- Number of chunks a file of length len yields at chunk size c. -/
def numChunksSpec (len c : Nat) : Nat := (len + c - 1) / c

/-- The i-th chunk is the c bytes starting at offset i*c. -/
def chunksSpec (file : List Nat) (c : Nat) : List (List Nat) :=
  (List.range (numChunksSpec file.length c)).map
    (fun i => (file.drop (i * c)).take c)

/-- The provider-A multipart entity tag exactly as the spec words it:
zero chunks → hash of empty input; one chunk → that chunk's hash,
hex encoded; more → hex of the hash of the concatenated raw per-chunk
digests, a dash, and the chunk count. -/
def s3EtagSpec (md5 : List Nat → List Nat) (file : List Nat) (c : Nat) : String :=
  let n := numChunksSpec file.length c
  if n = 0 then bytesToHex (md5 [])
  else if n = 1 then bytesToHex (md5 ((chunksSpec file c).headD []))
  else bytesToHex (md5 (((chunksSpec file c).map md5).flatten)) ++ "-" ++ toString n

theorem numChunksSpec_zero (c : Nat) : numChunksSpec 0 c = 0 := by
  unfold numChunksSpec
  rcases Nat.eq_zero_or_pos c with hc | hc
  · simp [hc]
  · exact Nat.div_eq_of_lt (by omega)

theorem numChunksSpec_succ (len c : Nat) (hc : 0 < c) (hl : 0 < len) :
    numChunksSpec len c = numChunksSpec (len - c) c + 1 := by
  unfold numChunksSpec
  rcases le_or_lt len c with h | h
  · have h1 : len - c = 0 := by omega
    have h2 : (len + c - 1) / c = 1 :=
      Nat.div_eq_of_lt_le (by omega) (by omega)
    have h3 : (0 + c - 1) / c = 0 := Nat.div_eq_of_lt (by omega)
    rw [h1, h2, h3]
  · have h3 : len + c - 1 = (len - c + c - 1) + c := by omega
    rw [h3, Nat.add_div_right _ hc]

theorem chunksSpec_nil (c : Nat) : chunksSpec [] c = [] := by
  simp [chunksSpec, numChunksSpec_zero]

theorem chunksSpec_cons (file : List Nat) (c : Nat) (hc : 0 < c)
    (hf : file ≠ []) :
    chunksSpec file c = file.take c :: chunksSpec (file.drop c) c := by
  have hlen : 0 < file.length := List.length_pos.mpr hf
  unfold chunksSpec
  rw [List.length_drop, numChunksSpec_succ file.length c hc hlen,
    List.range_succ_eq_map, List.map_cons, List.map_map]
  refine List.cons_eq_cons.mpr ⟨by simp, ?_⟩
  apply List.map_congr_left
  intro i _
  simp only [Function.comp_apply, List.drop_drop, Nat.succ_mul]
  rw [Nat.add_comm (i * c) c]

/-- The read loop produces exactly the positional chunks of the spec. -/
theorem readChunks_eq_chunksSpec (c : Nat) (hc : 0 < c) (file : List Nat) :
    readChunks file c = chunksSpec file c := by
  have H : ∀ n (l : List Nat), l.length ≤ n → readChunks l c = chunksSpec l c := by
    intro n
    induction n with
    | zero =>
      intro l hl
      have : l = [] := List.eq_nil_of_length_eq_zero (Nat.le_zero.mp hl)
      subst this
      rw [readChunks, chunksSpec_nil]
      simp
    | succ n ih =>
      intro l hl
      rcases List.eq_nil_or_concat l with (rfl | _)
      · rw [readChunks, chunksSpec_nil]
        simp
      · have hne : l ≠ [] := by
          rintro rfl
          simp_all
        rw [readChunks, chunksSpec_cons l c hc hne]
        have hc0 : ¬(c = 0 ∨ l = []) := by
          push_neg
          exact ⟨Nat.pos_iff_ne_zero.mp hc, hne⟩
        simp only [hc0, dite_false]
        refine List.cons_eq_cons.mpr ⟨rfl, ?_⟩
        apply ih
        have : 0 < l.length := List.length_pos.mpr hne
        simp only [List.length_drop]
        omega
  exact H file.length file (Nat.le_refl _)

theorem chunksSpec_length (file : List Nat) (c : Nat) :
    (chunksSpec file c).length = numChunksSpec file.length c := by
  unfold chunksSpec
  simp

theorem numChunksSpec_eq_one_imp (len c : Nat) (hc : 0 < c)
    (h : numChunksSpec len c = 1) : len ≤ c := by
  by_contra h2
  push_neg at h2
  have hl : 0 < len := by omega
  rw [numChunksSpec_succ len c hc hl] at h
  have h3 : 1 ≤ numChunksSpec (len - c) c := by
    unfold numChunksSpec
    rw [Nat.one_le_div_iff hc]
    omega
  omega

theorem numChunksSpec_pos_len (len c : Nat)
    (h : 0 < numChunksSpec len c) : 0 < len := by
  by_contra h2
  push_neg at h2
  have : len = 0 := by omega
  subst this
  rw [numChunksSpec_zero] at h
  omega

/-- The while-loop computation agrees with the spec-worded tag. -/
theorem calculate_s3_md5sum_eq_spec (md5 : List Nat → List Nat)
    (file : List Nat) (c : Nat) (hc : 0 < c) :
    calculate_s3_md5sum md5 file c = s3EtagSpec md5 file c := by
  simp only [calculate_s3_md5sum, s3EtagSpec]
  rw [readChunks_eq_chunksSpec c hc, chunksSpec_length]
  simp only [Nat.lt_one_iff]

/-- With a single chunk the tag is the plain hex digest of the file. -/
theorem calculate_s3_md5sum_single (md5 : List Nat → List Nat)
    (file : List Nat) (c : Nat) (hc : 0 < c)
    (h : numChunksSpec file.length c = 1) :
    calculate_s3_md5sum md5 file c = bytesToHex (md5 file) := by
  have hne : file ≠ [] := by
    intro hf
    subst hf
    rw [List.length_nil, numChunksSpec_zero] at h
    omega
  have htake : file.take c = file :=
    List.take_of_length_le (numChunksSpec_eq_one_imp _ _ hc h)
  rw [calculate_s3_md5sum_eq_spec md5 file c hc]
  simp only [s3EtagSpec, h]
  norm_num
  rw [chunksSpec_cons file c hc hne]
  simp [htake]

/-- With more than one chunk the tag carries the dash-count suffix. -/
theorem calculate_s3_md5sum_multi (md5 : List Nat → List Nat)
    (file : List Nat) (c : Nat) (hc : 0 < c)
    (h : 2 ≤ numChunksSpec file.length c) :
    calculate_s3_md5sum md5 file c
      = bytesToHex (md5 (((chunksSpec file c).map md5).flatten)) ++ "-"
          ++ toString (numChunksSpec file.length c) := by
  rw [calculate_s3_md5sum_eq_spec md5 file c hc]
  simp only [s3EtagSpec]
  rw [if_neg (by omega), if_neg (by omega)]

/-- Constant digest standing in for hashlib.md5 in concrete witnesses;
the combination algorithm under verification does not depend on the
internals of the hash primitive. -/
def md5dummy : List Nat → List Nat := fun _ => List.replicate 16 0

/-- A 10 MiB file, all zero bytes. -/
def fileTenMB : List Nat := List.replicate (10 * 1024 * 1024) 0

/-- C1, counterexample.  In process_localdir_to_aws.py a 10 MB local
file at 5 MB chunk size falls below the 64 MiB multipart threshold, so
calculate_s3_md5sum returns the plain whole-file hex digest — a
dash-free string — although the claim promises a composite tag ending
in "-2" (the file does split into 2 chunks). -/
theorem C1_counterexample :
    localdir_calculate_s3_md5sum md5dummy fileTenMB (5 * 1024 * 1024)
        = "00000000000000000000000000000000"
    ∧ dashFree (localdir_calculate_s3_md5sum md5dummy fileTenMB
        (5 * 1024 * 1024)) = true
    ∧ numChunksSpec fileTenMB.length (5 * 1024 * 1024) = 2 := by
  have hlen : fileTenMB.length = 10 * 1024 * 1024 :=
    List.length_replicate _ _
  have hsmall : fileTenMB.length < boto_multipart_threshold := by
    rw [hlen]
    decide
  have h1 : localdir_calculate_s3_md5sum md5dummy fileTenMB (5 * 1024 * 1024)
      = calculate_md5sum md5dummy fileTenMB := by
    unfold localdir_calculate_s3_md5sum
    rw [if_pos hsmall]
  have h2 : calculate_md5sum md5dummy fileTenMB
      = bytesToHex (List.replicate 16 0) := rfl
  refine ⟨?_, ?_, ?_⟩
  · rw [h1, h2]
    decide
  · rw [h1, h2]
    exact bytesToHex_dashFree _
  · rw [hlen]
    decide

/-- C1, amended.  For every positive chunk size, process.py's
calculate_s3_md5sum equals the spec's zero / one / many chunk formula
(s3EtagSpec); in particular a 10 MB file at 5 MB chunks gives the
composite digest with suffix "-2" and a 3 MB file gives the plain
dash-free hex digest.  process_localdir_to_aws.py's variant only runs
that formula for files at or above the 64 MiB multipart threshold;
smaller files — including a 10 MB one — get the plain whole-file hex
digest instead. -/
theorem C1_s3_etag_characterization (md5 : List Nat → List Nat)
    (file : List Nat) (c : Nat) (hc : 0 < c) :
    calculate_s3_md5sum md5 file c = s3EtagSpec md5 file c
    ∧ (file.length = 10 * 1024 * 1024 → c = 5 * 1024 * 1024 →
        calculate_s3_md5sum md5 file c
          = bytesToHex (md5 (((chunksSpec file c).map md5).flatten)) ++ "-2")
    ∧ (file.length = 3 * 1024 * 1024 → c = 5 * 1024 * 1024 →
        calculate_s3_md5sum md5 file c = bytesToHex (md5 file)
          ∧ dashFree (calculate_s3_md5sum md5 file c) = true)
    ∧ (numChunksSpec file.length c = 1 →
        calculate_s3_md5sum md5 file c = bytesToHex (md5 file))
    ∧ (numChunksSpec file.length c = 0 →
        calculate_s3_md5sum md5 file c = bytesToHex (md5 []))
    ∧ (boto_multipart_threshold ≤ file.length →
        localdir_calculate_s3_md5sum md5 file c = calculate_s3_md5sum md5 file c)
    ∧ (file.length < boto_multipart_threshold →
        localdir_calculate_s3_md5sum md5 file c = calculate_md5sum md5 file) := by
  refine ⟨calculate_s3_md5sum_eq_spec md5 file c hc, ?_, ?_, ?_, ?_, ?_, ?_⟩
  · intro hl hcv
    subst hcv
    have h2 : numChunksSpec file.length (5 * 1024 * 1024) = 2 := by
      rw [hl]
      decide
    rw [calculate_s3_md5sum_multi md5 file _ hc (by omega), h2]
    rw [String.append_assoc]
    rfl
  · intro hl hcv
    subst hcv
    have h1 : numChunksSpec file.length (5 * 1024 * 1024) = 1 := by
      rw [hl]
      decide
    have := calculate_s3_md5sum_single md5 file _ hc h1
    exact ⟨this, by rw [this]; exact bytesToHex_dashFree _⟩
  · exact calculate_s3_md5sum_single md5 file c hc
  · intro h0
    simp only [calculate_s3_md5sum]
    rw [readChunks_eq_chunksSpec c hc, chunksSpec_length, h0]
    simp
  · intro hbig
    unfold localdir_calculate_s3_md5sum
    rw [if_neg (by omega)]
  · intro hsmall
    unfold localdir_calculate_s3_md5sum
    rw [if_pos hsmall]

/-- Witness for C1 at a concrete input: file [1, 2, 3] at chunk size 2
splits into two chunks and gets the composite tag. -/
theorem C1_s3_etag_characterization_witness :
    (0 : Nat) < 2
    ∧ calculate_s3_md5sum md5dummy [1, 2, 3] 2 = s3EtagSpec md5dummy [1, 2, 3] 2
    ∧ s3EtagSpec md5dummy [1, 2, 3] 2 = "00000000000000000000000000000000-2" :=
  ⟨by decide, (C1_s3_etag_characterization md5dummy [1, 2, 3] 2 (by decide)).1,
    by decide⟩

/-! ## Manifest Store: update_manifest_file

The receipt manifest file is an explicit file state; seek(0),
truncate() and the csv writer's writes are the operations the source
performs inside update_manifest_file.  A manifest row dictionary is an
ordered association list (Python dicts preserve insertion order). -/

/-- One manifest row: ordered field-name / value pairs. -/
abbrev RowDict := List (String × String)

structure FileState where
  content : List Char
  pos : Nat
deriving DecidableEq, Repr

/-- f.seek(0). -/
def fseek0 (fs : FileState) : FileState :=
  { fs with pos := 0 }

/-- f.truncate(): cut the file at the current position. -/
def ftruncate (fs : FileState) : FileState :=
  { content := fs.content.take fs.pos, pos := fs.pos }

/-- Write a string at the current position, overwriting in place and
extending the file as needed. -/
def fwrite (fs : FileState) (s : String) : FileState :=
  { content := fs.content.take fs.pos ++ s.data
      ++ fs.content.drop (fs.pos + s.length),
    pos := fs.pos + s.length }

/-- csv QUOTE_MINIMAL: a cell is quoted when it contains the
delimiter, the quote character, or a line break. -/
def needsQuote (s : String) : Bool :=
  s.data.any (fun c => c == '\t' || c == '"' || c == '\r' || c == '\n')

/-- Quote a cell, doubling embedded quote characters. -/
def quoteField (s : String) : String :=
  "\"" ++ String.mk ((s.data.map
    (fun c => if c == '"' then ['"', '"'] else [c])).flatten) ++ "\""

def csvField (s : String) : String :=
  if needsQuote s then quoteField s else s

/-- csv.writer(f, delimiter=tab).writerow: tab-separated cells plus
the default CRLF line terminator. -/
def csvWriteRow (cells : List String) : String :=
  String.intercalate "\t" (cells.map csvField) ++ "\r\n"

/-- The writer loop of update_manifest_file: the first row also emits
the header line built from its field names. -/
def writeRows : FileState → Bool → List RowDict → FileState
  | fs, _, [] => fs
  | fs, true, r :: rest =>
      writeRows (fwrite (fwrite fs (csvWriteRow (r.map Prod.fst)))
        (csvWriteRow (r.map Prod.snd))) false rest
  | fs, false, r :: rest =>
      writeRows (fwrite fs (csvWriteRow (r.map Prod.snd))) false rest

/-- update_manifest_file(f, od): seek to zero, truncate, then write
the header row followed by every row value line.  (The
threading.Lock() acquired by the with statement does not influence the
sequential result; its concurrency defect is modelled separately
below.) -/
def update_manifest_file (fs : FileState) (od : List RowDict) : FileState :=
  writeRows (ftruncate (fseek0 fs)) true od

def concatStrings : List String → String
  | [] => ""
  | s :: rest => s ++ concatStrings rest

/-- The full-snapshot serialization: header line from the first row's
field names, then one value line per row in order. -/
def serializeManifest (od : List RowDict) : String :=
  match od with
  | [] => ""
  | r0 :: _ =>
      csvWriteRow (r0.map Prod.fst)
        ++ concatStrings (od.map (fun r => csvWriteRow (r.map Prod.snd)))

theorem fwrite_at_end (fs : FileState) (s : String)
    (h : fs.pos = fs.content.length) :
    fwrite fs s = ⟨fs.content ++ s.data, fs.pos + s.length⟩ := by
  unfold fwrite
  rw [h, List.take_of_length_le (Nat.le_refl _),
    List.drop_eq_nil_of_le (by simpa using Nat.le_add_right _ _)]
  simp

theorem writeRows_false (rs : List RowDict) :
    ∀ fs : FileState, fs.pos = fs.content.length →
    writeRows fs false rs
      = ⟨fs.content
          ++ (concatStrings (rs.map (fun r => csvWriteRow (r.map Prod.snd)))).data,
        fs.pos
          + (concatStrings (rs.map (fun r => csvWriteRow (r.map Prod.snd)))).length⟩ := by
  induction rs with
  | nil =>
    intro fs h
    simp [writeRows, concatStrings]
  | cons r rest ih =>
    intro fs h
    rw [List.map_cons]
    show writeRows (fwrite fs (csvWriteRow (r.map Prod.snd))) false rest = _
    rw [fwrite_at_end fs _ h]
    have hp : (FileState.mk (fs.content ++ (csvWriteRow (r.map Prod.snd)).data)
        (fs.pos + (csvWriteRow (r.map Prod.snd)).length)).pos
        = (FileState.mk (fs.content ++ (csvWriteRow (r.map Prod.snd)).data)
        (fs.pos + (csvWriteRow (r.map Prod.snd)).length)).content.length := by
      simp [h, String.length_data]
    rw [ih _ hp]
    simp only [concatStrings, String.data_append, String.length_append]
    refine congrArg₂ FileState.mk ?_ ?_
    · simp
    · omega

/-- C3.  Each sequential call of update_manifest_file rewrites the
file from position zero into exactly the header line (field names of
the first row) followed by one tab-separated value line per row in
insertion order — independent of whatever the file held before, so it
is a full snapshot, never an append. -/
theorem C3_update_manifest_full_snapshot (fs : FileState) (od : List RowDict) :
    (update_manifest_file fs od).content = (serializeManifest od).data
    ∧ ∀ fs2 : FileState,
        (update_manifest_file fs2 od).content = (update_manifest_file fs od).content := by
  have key : ∀ g : FileState, (update_manifest_file g od).content
      = (serializeManifest od).data := by
    intro g
    unfold update_manifest_file
    have e0 : ftruncate (fseek0 g) = ⟨[], 0⟩ := by
      simp [ftruncate, fseek0]
    rw [e0]
    cases od with
    | nil => simp [writeRows, serializeManifest]
    | cons r0 rest =>
      show (writeRows (fwrite (fwrite ⟨[], 0⟩ (csvWriteRow (r0.map Prod.fst)))
          (csvWriteRow (r0.map Prod.snd))) false rest).content = _
      rw [fwrite_at_end ⟨[], 0⟩ _ rfl]
      rw [fwrite_at_end _ _ (by simp [String.length_data])]
      rw [writeRows_false rest _ (by simp [String.length_data])]
      simp [serializeManifest, concatStrings, String.length_data]
  exact ⟨key fs, fun fs2 => by rw [key fs, key fs2]⟩

/-! ## Concurrency defect of update_manifest_file

The with statement in the source acquires threading.Lock() — a lock
object newly constructed inside the call — so two concurrent callers
hold two different locks.  We model each call as its operation
sequence (acquire its own fresh lock, seek, truncate, one write per
line, release) over the shared file state, and execute an explicit
interleaving schedule.  An acquire step only blocks when that same
lock object is already held. -/

inductive WOp where
  | acquireNew (lid : Nat)
  | releaseL (lid : Nat)
  | seek0
  | trunc
  | writeOp (s : String)
deriving DecidableEq, Repr

structure MState where
  file : FileState
  held : List Nat
deriving DecidableEq, Repr

def stepOp (st : MState) (op : WOp) : Option MState :=
  match op with
  | .acquireNew l =>
      if st.held.contains l then none else some { st with held := l :: st.held }
  | .releaseL l => some { st with held := st.held.erase l }
  | .seek0 => some { st with file := fseek0 st.file }
  | .trunc => some { st with file := ftruncate st.file }
  | .writeOp s => some { st with file := fwrite st.file s }

/-- The lines update_manifest_file writes: header from the first
row's field names, then one value line per row. -/
def manifestLines (od : List RowDict) : List String :=
  match od with
  | [] => []
  | r0 :: _ =>
      csvWriteRow (r0.map Prod.fst) :: od.map (fun r => csvWriteRow (r.map Prod.snd))

/-- One call of update_manifest_file as its atomic operations; lockId
identifies the Lock() object this particular call constructed. -/
def updateManifestOps (lockId : Nat) (od : List RowDict) : List WOp :=
  WOp.acquireNew lockId :: WOp.seek0 :: WOp.trunc ::
    ((manifestLines od).map WOp.writeOp ++ [WOp.releaseL lockId])

/-- Run two op sequences under an interleaving schedule (true = first
caller moves).  Returns none when the schedule is invalid — in
particular when it tries to step through a blocked acquire. -/
def runSched : List Bool → MState → List WOp → List WOp → Option MState
  | [], st, [], [] => some st
  | [], _, _, _ => none
  | true :: sched, st, a :: as, bs =>
      match stepOp st a with
      | some st2 => runSched sched st2 as bs
      | none => none
  | true :: _, _, [], _ => none
  | false :: sched, st, as, b :: bs =>
      match stepOp st b with
      | some st2 => runSched sched st2 as bs
      | none => none
  | false :: _, _, _, [] => none

/-- A one-row manifest. -/
def od0 : List RowDict := [[("a", "1")]]

/-- The schedule that lets the second caller's seek land between the
first caller's two writes. -/
def sched0 : List Bool :=
  [true, true, true, true, false, false, true, true, false, false, false, false]

def initMState : MState := ⟨⟨[], 0⟩, []⟩

/-- C2.  Two concurrent update_manifest_file calls each construct
their own threading.Lock(), so both acquires succeed and the schedule
sched0 is a valid execution; it ends with the manifest file holding a
value line, then the header, then the value line again — a duplicated
row, not the serialized snapshot.  With one shared lock object (same
lock id on both sides) the very same schedule is rejected: the second
acquire blocks.  The mutual-exclusion section the claim describes is
absent because the lock is fresh per call. -/
theorem C2_fresh_lock_allows_interleaving :
    runSched sched0 initMState (updateManifestOps 0 od0) (updateManifestOps 1 od0)
      = some ⟨⟨("1\r\na\r\n1\r\n").data, 9⟩, []⟩
    ∧ ("1\r\na\r\n1\r\n").data ≠ (serializeManifest od0).data
    ∧ runSched sched0 initMState (updateManifestOps 0 od0) (updateManifestOps 0 od0)
      = none := by
  refine ⟨?_, ?_, ?_⟩
  · decide
  · decide
  · decide

/-! ## Manifest row and provider metadata operations

The loosely-typed row dictionary of the scripts, as a record over the
union of the fields the three variants use.  Provider responses are
explicit records; hashlib.md5 and file reading stay oracles. -/

structure Row where
  study_id : String := ""
  consent_group : String := ""
  input_file_path : String := ""
  file_size : Nat := 0
  guid : String := ""
  ga4gh_drs_uri : String := ""
  md5sum : String := ""
  gs_crc32c : String := ""
  gs_path : String := ""
  gs_modified_date : String := ""
  gs_file_size : String := ""
  s3_md5sum : String := ""
  s3_path : String := ""
  s3_modified_date : String := ""
  s3_file_size : String := ""
deriving DecidableEq, Repr

/-- An s3 head_object response (ETag kept raw, with its quotes). -/
structure HeadResponse where
  contentLength : Nat
  eTagRaw : String
  lastModified : String
deriving DecidableEq, Repr

/-- A Google Cloud Storage blob description. -/
structure Blob where
  crc32c : String
  md5_hash : Option String
  updated : String
  size : Nat
deriving DecidableEq, Repr

/-- verify_s3_file (process.py): when the object exists, record the
stripped ETag as s3_md5sum and promote it to md5sum only when it has
no dash; returns whether the location was found. -/
def verify_s3_file (v : Row) (keyFound : Bool) (resp : HeadResponse) : Row × Bool :=
  if keyFound then
    let v := { v with s3_md5sum := stripQuotes resp.eTagRaw }
    let v := if dashFree v.s3_md5sum then { v with md5sum := v.s3_md5sum } else v
    (v, true)
  else (v, false)

/-- verify_gs_file (process.py): when the blob exists, record its
crc32c, and copy blob.md5_hash — a base64 string — into md5sum when
the provider reports one. -/
def verify_gs_file (v : Row) (blobFound : Bool) (blob : Blob) : Row × Bool :=
  if blobFound then
    let v := { v with gs_crc32c := blob.crc32c }
    let v := match blob.md5_hash with
      | some h => { v with md5sum := h }
      | none => v
    (v, true)
  else (v, false)

/-- add_aws_manifest_metadata (process.py): promote a dash-free ETag
into md5sum, fill the three destination fields, and fall back to a
locally computed hex digest when md5sum is still empty. -/
def add_aws_manifest_metadata (md5 : List Nat → List Nat)
    (readFile : String → List Nat) (fields : Row) (resp : HeadResponse)
    (path : String) : Row :=
  let m := stripQuotes resp.eTagRaw
  let fields := if dashFree m then { fields with md5sum := m } else fields
  let fields := { fields with
    s3_path := path,
    s3_modified_date := resp.lastModified,
    s3_file_size := toString resp.contentLength }
  if fields.md5sum.length = 0 then
    { fields with md5sum := calculate_md5sum md5 (readFile fields.input_file_path) }
  else fields

/-- get_drs_uri / add_new_drs_uri draw uuid4; the random draw is the
explicit argument. process_localdir_to_aws.py flavor (slash). -/
def add_new_drs_uri (uuid : String) (v : Row) : Row :=
  if strStarts v.ga4gh_drs_uri "drs://" then v
  else { v with
    guid := "dg.4503/" ++ uuid,
    ga4gh_drs_uri := "drs://dg.4503:dg.4503/" ++ uuid }

/-- add_drs_uri_from_path (process_localdir_to_aws.py): derive the
identifier from the fifth slash-separated segment of the remote path. -/
def add_drs_uri_from_path (v : Row) (path : String) : Row :=
  if strStarts v.ga4gh_drs_uri "drs://" then v
  else
    let segments := splitSlash path
    { v with
      guid := "dg.4503/" ++ segments.getD 4 "",
      ga4gh_drs_uri := "drs://dg.4503:dg.4503/" ++ segments.getD 4 "" }

/-- process_directory.py flavor of add_new_drs_uri (percent-encoded
separator). -/
def dir_add_new_drs_uri (uuid : String) (v : Row) : Row :=
  if strStarts v.ga4gh_drs_uri "drs://" then v
  else { v with
    guid := "dg.4503/" ++ uuid,
    ga4gh_drs_uri := "drs://dg.4503:dg.4503%2F" ++ uuid }

/-- process_directory.py flavor of add_drs_uri_from_path. -/
def dir_add_drs_uri_from_path (v : Row) (path : String) : Row :=
  if strStarts v.ga4gh_drs_uri "drs://" then v
  else
    let segments := splitSlash path
    { v with
      guid := "dg.4503/" ++ segments.getD 4 "",
      ga4gh_drs_uri := "drs://dg.4503:dg.4503%2F" ++ segments.getD 4 "" }

/-- add_aws_manifest_metadata (process_localdir_to_aws.py): same as
process.py plus minting a fresh drs uri when none is present (the
derive-from-path call is commented out in the source). -/
def localdir_add_aws_manifest_metadata (md5 : List Nat → List Nat)
    (readFile : String → List Nat) (uuid : String) (fields : Row)
    (resp : HeadResponse) (path : String) : Row :=
  let fields := add_aws_manifest_metadata md5 readFile fields resp path
  if strStarts fields.ga4gh_drs_uri "drs://" then fields
  else add_new_drs_uri uuid fields

/-- add_aws_manifest_metadata (process_directory.py): same md5/field
logic, then derives the drs uri from the destination path. -/
def dir_add_aws_manifest_metadata (md5 : List Nat → List Nat)
    (readFile : String → List Nat) (fields : Row) (resp : HeadResponse)
    (path : String) : Row :=
  let fields := add_aws_manifest_metadata md5 readFile fields resp path
  if strStarts fields.ga4gh_drs_uri "drs://" then fields
  else dir_add_drs_uri_from_path fields path

/-- add_gs_manifest_metadata (process.py): fill the gs destination
fields; when md5sum is still empty take blob.md5_hash (base64) if
reported, else compute the hex digest locally. -/
def add_gs_manifest_metadata (md5 : List Nat → List Nat)
    (readFile : String → List Nat) (fields : Row) (blob : Blob)
    (gs_path : String) (input_file_path : String) : Row :=
  let fields := { fields with
    gs_path := gs_path,
    gs_modified_date := blob.updated,
    gs_file_size := toString blob.size }
  if fields.md5sum.length = 0 then
    match blob.md5_hash with
    | some h => { fields with md5sum := h }
    | none => { fields with md5sum := calculate_md5sum md5 (readFile input_file_path) }
  else fields

/-- add_gs_manifest_metadata (process_directory.py): as process.py but
the reported base64 md5 is decoded to raw bytes and hex encoded
(base64.b64decode(...).hex()); b64decode is the explicit oracle.
A missing drs uri is then minted fresh (the derive-from-path call is
commented out behind a FIXME). -/
def dir_add_gs_manifest_metadata (md5 : List Nat → List Nat)
    (readFile : String → List Nat) (b64decode : String → List Nat)
    (uuid : String) (fields : Row) (blob : Blob) (gs_path : String)
    (input_file_path : String) : Row :=
  let fields := { fields with
    gs_path := gs_path,
    gs_modified_date := blob.updated,
    gs_file_size := toString blob.size }
  let fields :=
    if fields.md5sum.length = 0 then
      match blob.md5_hash with
      | some h => { fields with md5sum := bytesToHex (b64decode h) }
      | none => { fields with md5sum := calculate_md5sum md5 (readFile input_file_path) }
    else fields
  if strStarts fields.ga4gh_drs_uri "drs://" then fields
  else dir_add_new_drs_uri uuid fields

/-- checksum_check (process_localdir_to_aws.py): stripped ETag versus
the computed s3_md5sum; a mismatch only prints a message. -/
def checksum_check (fields : Row) (resp : HeadResponse) : Bool :=
  fields.s3_md5sum == stripQuotes resp.eTagRaw

/-- handle_aws_file_upload (process_localdir_to_aws.py), after the
upload call: head the object and populate metadata only when the
checksum check passes; on a mismatch the row is returned unchanged
(and not marked failed). -/
def handle_aws_file_upload (md5 : List Nat → List Nat)
    (readFile : String → List Nat) (uuid : String) (v : Row)
    (resp : HeadResponse) (bucket_name s3_file : String) : Row :=
  if checksum_check v resp then
    localdir_add_aws_manifest_metadata md5 readFile uuid v resp
      ("s3://" ++ bucket_name ++ "/" ++ s3_file)
  else v

/-- The post-upload verification step of upload_to_gcloud
(process.py): metadata is added only when the stored crc32c equals the
blob's; a mismatch just prints and leaves the row untouched. -/
def gcloud_post_upload_verify (md5 : List Nat → List Nat)
    (readFile : String → List Nat) (v : Row) (blob : Blob)
    (gs_path input_file_path : String) : Row :=
  if v.gs_crc32c == blob.crc32c then
    add_gs_manifest_metadata md5 readFile v blob gs_path input_file_path
  else v

def emptyReadFile : String → List Nat := fun _ => []

def rowC8 : Row := { input_file_path := "/data/f.bin", s3_md5sum := "aaa" }

def respC8 : HeadResponse := ⟨3, "\"bbb\"", "2021-01-01 00:00:00+00:00"⟩

/-- C8, counterexample.  In process_localdir_to_aws.py's
handle_aws_file_upload a checksum mismatch does not populate the
destination descriptor: the row comes back unchanged with s3_path
still empty, contradicting the claim that the row is still completed
with its destination fields populated. -/
theorem C8_counterexample :
    checksum_check rowC8 respC8 = false
    ∧ handle_aws_file_upload md5dummy emptyReadFile "u0" rowC8 respC8
        "bkt" "aaa/f.bin" = rowC8
    ∧ (handle_aws_file_upload md5dummy emptyReadFile "u0" rowC8 respC8
        "bkt" "aaa/f.bin").s3_path = "" := by
  refine ⟨by decide, by decide, by decide⟩

/-- C8, amended.  A post-transfer checksum mismatch is only logged and
never marks the row failed, but the variants disagree on the fields:
process.py's AWS path (add_aws_manifest_metadata) populates the
destination descriptor regardless of the comparison, while
process.py's Google path and process_localdir_to_aws.py's
handle_aws_file_upload leave the row untouched on a mismatch, so the
destination fields are not populated there. -/
theorem C8_mismatch_logged_only (md5 : List Nat → List Nat)
    (readFile : String → List Nat) (uuid : String) (v : Row)
    (resp : HeadResponse) (path bucket s3_file : String) (blob : Blob)
    (gs_path input_path : String) :
    ((add_aws_manifest_metadata md5 readFile v resp path).s3_path = path
      ∧ (add_aws_manifest_metadata md5 readFile v resp path).s3_modified_date
          = resp.lastModified
      ∧ (add_aws_manifest_metadata md5 readFile v resp path).s3_file_size
          = toString resp.contentLength)
    ∧ (checksum_check v resp = false →
        handle_aws_file_upload md5 readFile uuid v resp bucket s3_file = v)
    ∧ (v.gs_crc32c ≠ blob.crc32c →
        gcloud_post_upload_verify md5 readFile v blob gs_path input_path = v) := by
  refine ⟨?_, ?_, ?_⟩
  · unfold add_aws_manifest_metadata
    constructor
    · by_cases h1 : dashFree (stripQuotes resp.eTagRaw) <;>
        by_cases h2 : (0 : Nat) = 0 <;>
        simp [h1] <;> split <;> simp
    · constructor <;>
      · by_cases h1 : dashFree (stripQuotes resp.eTagRaw) <;>
          simp [h1] <;> split <;> simp
  · intro h
    unfold handle_aws_file_upload
    rw [if_neg (by simp [h])]
  · intro h
    unfold gcloud_post_upload_verify
    rw [if_neg (by simpa using h)]

/-- Witness for C8 at concrete inputs: a mismatching ETag leaves the
localdir row unchanged while process.py's metadata call still fills
the destination fields. -/
theorem C8_mismatch_logged_only_witness :
    handle_aws_file_upload md5dummy emptyReadFile "u0" rowC8 respC8 "bkt" "k" = rowC8
    ∧ (add_aws_manifest_metadata md5dummy emptyReadFile rowC8 respC8
        "s3://bkt/k").s3_path = "s3://bkt/k"
    ∧ gcloud_post_upload_verify md5dummy emptyReadFile rowC8 ⟨"c", none, "t", 0⟩
        "g" "i" = rowC8
    ∧ checksum_check rowC8 respC8 = false :=
  ⟨(C8_mismatch_logged_only md5dummy emptyReadFile "u0" rowC8 respC8
      "s3://bkt/k" "bkt" "k" ⟨"c", none, "t", 0⟩ "g" "i").2.1 (by decide),
    (C8_mismatch_logged_only md5dummy emptyReadFile "u0" rowC8 respC8
      "s3://bkt/k" "bkt" "k" ⟨"c", none, "t", 0⟩ "g" "i").1.1,
    (C8_mismatch_logged_only md5dummy emptyReadFile "u0" rowC8 respC8
      "s3://bkt/k" "bkt" "k" ⟨"c", none, "t", 0⟩ "g" "i").2.2 (by decide),
    by decide⟩

/-! ## Upload categorization and content-addressed existence checks -/

/-- The listing a prefix query returns plus the head_object response
of its first entry. -/
structure BucketProbe where
  keys : List String
  resp : HeadResponse
deriving DecidableEq, Repr

/-- path_in_aws_bucket (process_localdir_to_aws.py): a non-empty
prefix listing whose first object passes the checksum check populates
the metadata and counts as already uploaded. -/
def path_in_aws_bucket (md5 : List Nat → List Nat)
    (readFile : String → List Nat) (uuid : String) (bucket_name : String)
    (probe : BucketProbe) (path : String) (v : Row) : Row × Bool :=
  match probe.keys.filter (fun k => strStarts k path) with
  | [] => (v, false)
  | k :: _ =>
      if checksum_check v probe.resp then
        (localdir_add_aws_manifest_metadata md5 readFile uuid v probe.resp
          ("s3://" ++ bucket_name ++ "/" ++ k), true)
      else (v, false)

inductive UploadCategory where
  | skippedAlreadyUploaded
  | skippedExists
  | regularQueue
  | multipartQueue
deriving DecidableEq, Repr

/-- categorize_file_for_upload (process_localdir_to_aws.py).  In
resume mode a row whose s3_path is already populated is skipped —
after calling add_new_drs_uri, i.e. minting a fresh random identifier
(the add_drs_uri_from_path call sits commented out behind a fixme). -/
def categorize_file_for_upload (md5 : List Nat → List Nat)
    (readFile : String → List Nat) (uuid : String) (resume_mode : Bool)
    (bucket_name bucket_folder : String) (probe : BucketProbe) (v : Row) :
    Row × UploadCategory :=
  if resume_mode && strStarts v.s3_path "s3://" then
    (add_new_drs_uri uuid v, .skippedAlreadyUploaded)
  else
    let s3_file := bucket_folder ++ v.input_file_path
    match path_in_aws_bucket md5 readFile uuid bucket_name probe s3_file v with
    | (v2, true) => (v2, .skippedExists)
    | (v2, false) =>
        if v2.file_size < boto_multipart_threshold then (v2, .regularQueue)
        else (v2, .multipartQueue)

/-- The resume branch of upload_to_aws (process_directory.py): it
derives the identifier from the persisted path before skipping. -/
def dir_upload_resume_skip (v : Row) : Row :=
  dir_add_drs_uri_from_path v v.s3_path

def probeEmpty : BucketProbe := ⟨[], ⟨0, "", ""⟩⟩

def rowC6 : Row :=
  { input_file_path := "/d/x.bin",
    s3_path := "s3://bkt/abc/0000-1111/x.bin",
    file_size := 3 }

/-- C6.  On resume, process_localdir_to_aws.py's
categorize_file_for_upload hands a row with a persisted s3_path to
add_new_drs_uri: the resulting identifier is the fresh random draw
(different draws give different identifiers for the same persisted
path), not the value add_drs_uri_from_path would deterministically
re-derive from that path — the code's own fixme comment points at the
commented-out deterministic call. -/
theorem C6_resume_identifier_is_fresh_draw :
    (categorize_file_for_upload md5dummy emptyReadFile "uuidA" true
        "bkt" "" probeEmpty rowC6).1.ga4gh_drs_uri = "drs://dg.4503:dg.4503/uuidA"
    ∧ (categorize_file_for_upload md5dummy emptyReadFile "uuidB" true
        "bkt" "" probeEmpty rowC6).1.ga4gh_drs_uri = "drs://dg.4503:dg.4503/uuidB"
    ∧ "drs://dg.4503:dg.4503/uuidA" ≠ "drs://dg.4503:dg.4503/uuidB"
    ∧ (add_drs_uri_from_path rowC6 rowC6.s3_path).ga4gh_drs_uri
        = "drs://dg.4503:dg.4503/0000-1111"
    ∧ (dir_upload_resume_skip
        { rowC6 with s3_path := "s3://bkt/abc/0000-1111/x.bin" }).ga4gh_drs_uri
        = "drs://dg.4503:dg.4503%2F0000-1111" := by
  refine ⟨by decide, by decide, by decide, by decide, by decide⟩

/-- The one-way-transition half of C6 (holds in the code): every
identifier writer first checks that ga4gh_drs_uri does not already
start with drs://, and writes values that do, so a populated
identifier is never overwritten. -/
theorem drs_uri_one_way (uuid path : String) (v : Row)
    (h : strStarts v.ga4gh_drs_uri "drs://" = true) :
    add_new_drs_uri uuid v = v ∧ add_drs_uri_from_path v path = v
    ∧ dir_add_new_drs_uri uuid v = v ∧ dir_add_drs_uri_from_path v path = v := by
  unfold add_new_drs_uri add_drs_uri_from_path dir_add_new_drs_uri
    dir_add_drs_uri_from_path
  simp [h]

theorem drs_uri_one_way_witness :
    (strStarts ({ ga4gh_drs_uri := "drs://x" : Row }).ga4gh_drs_uri "drs://" = true)
    ∧ add_new_drs_uri "u" { ga4gh_drs_uri := "drs://x" } = { ga4gh_drs_uri := "drs://x" } :=
  ⟨by decide, (drs_uri_one_way "u" "p" { ga4gh_drs_uri := "drs://x" } (by decide)).1⟩

/-- aws_key_exists (process.py): list by prefix and test whether the
first listed object's key is exactly the requested key. -/
def aws_key_exists (store : List String) (key : String) : Bool :=
  match store.filter (fun k => strStarts k key) with
  | [] => false
  | k :: _ => k == key

/-- The destination object key upload_to_aws (process.py) derives:
content digest, slash, base filename of the input path. -/
def s3KeyFor (v : Row) : String :=
  v.s3_md5sum ++ "/" ++ basename v.input_file_path

inductive TransferDecision where
  | skipResume
  | skipExisting
  | uploadBytes
deriving DecidableEq, Repr

/-- The decision structure of upload_to_aws (process.py) for one row:
resume-skip, existence-check skip (exact key), else upload. -/
def upload_to_aws_decision (resume : Bool) (store : List String) (v : Row) :
    TransferDecision :=
  if resume && strStarts v.s3_path "s3://" then .skipResume
  else if aws_key_exists store (s3KeyFor v) then .skipExisting
  else .uploadBytes

/-- The decision structure of upload_to_aws (process_directory.py):
the existence check matches any object whose key starts with the
row's content digest (path_in_aws_bucket with the digest as prefix). -/
def dir_upload_to_aws_decision (resume : Bool) (store : List String) (v : Row) :
    TransferDecision :=
  if resume && strStarts v.s3_path "s3://" then .skipResume
  else if (store.filter (fun k => strStarts k v.s3_md5sum)).length > 0 then
    .skipExisting
  else .uploadBytes

def rowC4a : Row :=
  { input_file_path := "/a/x.txt", s3_md5sum := "d41d8cd98f00b204e9800998ecf8427e" }

def rowC4b : Row :=
  { input_file_path := "/b/y.txt", s3_md5sum := "d41d8cd98f00b204e9800998ecf8427e" }

/-- C4, counterexample.  Two rows with identical bytes (equal content
digests) but different base filenames: process.py derives different
destination keys, and after the first row's object is stored the
second row's existence check misses, so it is uploaded a second
time — not skipped. -/
theorem C4_counterexample :
    rowC4a.s3_md5sum = rowC4b.s3_md5sum
    ∧ s3KeyFor rowC4a ≠ s3KeyFor rowC4b
    ∧ upload_to_aws_decision false [s3KeyFor rowC4a] rowC4b
        = TransferDecision.uploadBytes := by
  refine ⟨by decide, by decide, by decide⟩

/-- C4, amended.  In process.py the destination key is
digest/basename, so two rows with identical bytes derive the same key
only when they also share a base filename; in that case, once the
first row's object is the store's only key extending the shared key,
the second row's transfer decision is the existence-check skip, never
a second upload.  With differing basenames the keys differ.  In
process_directory.py the existence check matches on the digest prefix
alone, so any stored object whose key starts with the shared digest
makes the second row a skip regardless of filename. -/
theorem C4_content_addressed_dedup (resume : Bool) (store store2 : List String)
    (v1 v2 : Row) (k : String)
    (hmd5 : v1.s3_md5sum = v2.s3_md5sum) :
    (basename v1.input_file_path = basename v2.input_file_path →
      s3KeyFor v1 = s3KeyFor v2)
    ∧ (store.filter (fun q => strStarts q (s3KeyFor v2)) = [s3KeyFor v2] →
        resume = false →
        upload_to_aws_decision resume store v2 = TransferDecision.skipExisting)
    ∧ (strStarts k v2.s3_md5sum = true → k ∈ store2 → resume = false →
        dir_upload_to_aws_decision resume store2 v2 = TransferDecision.skipExisting) := by
  refine ⟨?_, ?_, ?_⟩
  · intro hb
    unfold s3KeyFor
    rw [hmd5, hb]
  · intro hf hr
    subst hr
    unfold upload_to_aws_decision aws_key_exists
    rw [hf]
    simp
  · intro hk hmem hr
    subst hr
    unfold dir_upload_to_aws_decision
    have : (store2.filter (fun q => strStarts q v2.s3_md5sum)).length > 0 := by
      have : k ∈ store2.filter (fun q => strStarts q v2.s3_md5sum) :=
        List.mem_filter.mpr ⟨hmem, hk⟩
      have h2 := List.length_pos.mpr (List.ne_nil_of_mem this)
      omega
    simp only [this, if_true, Bool.false_and, Bool.and_eq_true]
    rfl

/-- Witness for C4: identical digests and identical basenames give the
same key and the second row is skipped, in both variants. -/
theorem C4_content_addressed_dedup_witness :
    (s3KeyFor rowC4a = s3KeyFor { rowC4b with input_file_path := "/b/x.txt" })
    ∧ upload_to_aws_decision false [s3KeyFor rowC4a]
        { rowC4b with input_file_path := "/b/x.txt" } = TransferDecision.skipExisting
    ∧ dir_upload_to_aws_decision false [s3KeyFor rowC4a]
        { rowC4b with input_file_path := "/b/x.txt" } = TransferDecision.skipExisting :=
  ⟨(C4_content_addressed_dedup false [s3KeyFor rowC4a] [s3KeyFor rowC4a]
      rowC4a { rowC4b with input_file_path := "/b/x.txt" } (s3KeyFor rowC4a)
      (by decide)).1 (by decide),
    (C4_content_addressed_dedup false [s3KeyFor rowC4a] [s3KeyFor rowC4a]
      rowC4a { rowC4b with input_file_path := "/b/x.txt" } (s3KeyFor rowC4a)
      (by decide)).2.1 (by decide) rfl,
    (C4_content_addressed_dedup false [s3KeyFor rowC4a] [s3KeyFor rowC4a]
      rowC4a { rowC4b with input_file_path := "/b/x.txt" } (s3KeyFor rowC4a)
      (by decide)).2.2 (by decide) (by decide) rfl⟩

/-! ## Bucket Capability Cache -/

/-- What the AWS probe of aws_bucket_writeable can observe: the bucket
is absent from the account listing, the policy simulation allows or
denies s3:PutObject, or the NoSuchBucket error is raised. -/
inductive AwsProbe where
  | bucketMissing
  | allowed
  | denied
  | noSuchBucketErr
deriving DecidableEq, Repr

/-- Result of one writability call: the boolean answer, the cache
afterwards, and whether the provider was consulted. -/
structure CacheResult where
  result : Bool
  cache : List (String × Nat)
  probed : Bool
deriving DecidableEq, Repr

/-- aws_bucket_writeable (process.py): cached answers return without
probing; an uncached probe records 1 on allow, 0 on deny or
NoSuchBucket — but the bucket-missing early return records nothing. -/
def aws_bucket_writeable (oracle : AwsProbe) (cache : List (String × Nat))
    (bucket_name : String) : CacheResult :=
  match cache.lookup bucket_name with
  | some n => ⟨n == 1, cache, false⟩
  | none =>
      match oracle with
      | .bucketMissing => ⟨false, cache, true⟩
      | .allowed => ⟨true, (bucket_name, 1) :: cache, true⟩
      | .denied => ⟨false, (bucket_name, 0) :: cache, true⟩
      | .noSuchBucketErr => ⟨false, (bucket_name, 0) :: cache, true⟩

/-- What the Google probe of gs_bucket_writeable can observe. -/
inductive GsProbe where
  | okPerms
  | okNoPerms
  | bucketExistsFalse
  | badRequestErr
  | forbiddenErr
  | otherErr
deriving DecidableEq, Repr

/-- Result of one gs writability call; the Python function returns
None (modelled none) on the exists()-false fall-through. -/
structure GsCacheResult where
  result : Option Bool
  cache : List (String × Nat)
  probed : Bool
deriving DecidableEq, Repr

/-- gs_bucket_writeable (process.py): cached answers return without
probing; every exception path records 0, permission success records
1 — but a bucket whose exists() is false falls off the end of the
function, returning None and recording nothing. -/
def gs_bucket_writeable (oracle : GsProbe) (cache : List (String × Nat))
    (bucket_name : String) : GsCacheResult :=
  match cache.lookup bucket_name with
  | some n => ⟨some (n == 1), cache, false⟩
  | none =>
      match oracle with
      | .okPerms => ⟨some true, (bucket_name, 1) :: cache, true⟩
      | .okNoPerms => ⟨some false, (bucket_name, 0) :: cache, true⟩
      | .bucketExistsFalse => ⟨none, cache, true⟩
      | .badRequestErr => ⟨some false, (bucket_name, 0) :: cache, true⟩
      | .forbiddenErr => ⟨some false, (bucket_name, 0) :: cache, true⟩
      | .otherErr => ⟨some false, (bucket_name, 0) :: cache, true⟩

/-- C7, counterexample.  A nonexistent bucket gives a negative answer
that is not recorded in the cache, so the immediately following call
for the same bucket name consults the provider again — the negative
outcome is retried within the run, against the claim. -/
theorem C7_counterexample :
    (aws_bucket_writeable .bucketMissing [] "bkt").result = false
    ∧ (aws_bucket_writeable .bucketMissing [] "bkt").probed = true
    ∧ (aws_bucket_writeable .bucketMissing [] "bkt").cache = []
    ∧ (aws_bucket_writeable .bucketMissing
        (aws_bucket_writeable .bucketMissing [] "bkt").cache "bkt").probed = true := by
  refine ⟨by decide, by decide, by decide, by decide⟩

/-- C7, amended.  Cached buckets (either polarity) are answered
without consulting the provider, and first probes record positive
results and the negative results arising from a policy denial, a
NoSuchBucket error, or (for Google) any exception or missing
permission.  But the AWS bucket-missing early return and the Google
exists()-false fall-through record nothing, so those negative
outcomes are probed again on every later call. -/
theorem C7_bucket_cache_memoization (oracle : AwsProbe) (goracle : GsProbe)
    (cache : List (String × Nat)) (b : String) (n : Nat) :
    (cache.lookup b = some n →
        aws_bucket_writeable oracle cache b = ⟨n == 1, cache, false⟩
        ∧ gs_bucket_writeable goracle cache b = ⟨some (n == 1), cache, false⟩)
    ∧ (cache.lookup b = none →
        (oracle = .allowed →
          aws_bucket_writeable oracle cache b = ⟨true, (b, 1) :: cache, true⟩)
        ∧ (oracle = .denied ∨ oracle = .noSuchBucketErr →
          aws_bucket_writeable oracle cache b = ⟨false, (b, 0) :: cache, true⟩)
        ∧ (oracle = .bucketMissing →
          aws_bucket_writeable oracle cache b = ⟨false, cache, true⟩)
        ∧ (goracle = .bucketExistsFalse →
          gs_bucket_writeable goracle cache b = ⟨none, cache, true⟩)
        ∧ (goracle = .okPerms →
          gs_bucket_writeable goracle cache b = ⟨some true, (b, 1) :: cache, true⟩)
        ∧ (goracle ≠ .okPerms → goracle ≠ .bucketExistsFalse →
          gs_bucket_writeable goracle cache b = ⟨some false, (b, 0) :: cache, true⟩)) := by
  constructor
  · intro h
    unfold aws_bucket_writeable gs_bucket_writeable
    rw [h]
    exact ⟨rfl, rfl⟩
  · intro h
    refine ⟨?_, ?_, ?_, ?_, ?_, ?_⟩
    · rintro rfl
      unfold aws_bucket_writeable
      rw [h]
    · rintro (rfl | rfl) <;> (unfold aws_bucket_writeable; rw [h])
    · rintro rfl
      unfold aws_bucket_writeable
      rw [h]
    · rintro rfl
      unfold gs_bucket_writeable
      rw [h]
    · rintro rfl
      unfold gs_bucket_writeable
      rw [h]
    · intro h1 h2
      unfold gs_bucket_writeable
      rw [h]
      cases goracle <;> simp_all

/-- Witness for C7 at concrete inputs: a cached positive is returned
without probing, and an uncached allowed probe records 1. -/
theorem C7_bucket_cache_memoization_witness :
    aws_bucket_writeable .allowed [("bkt", 1)] "bkt" = ⟨true, [("bkt", 1)], false⟩
    ∧ aws_bucket_writeable .allowed [] "bkt" = ⟨true, [("bkt", 1)], true⟩
    ∧ gs_bucket_writeable .bucketExistsFalse [] "bkt" = ⟨none, [], true⟩ :=
  ⟨((C7_bucket_cache_memoization .allowed .okPerms [("bkt", 1)] "bkt" 1).1
      (by decide)).1,
    ((C7_bucket_cache_memoization .allowed .okPerms [] "bkt" 1).2
      (by decide)).1 rfl,
    ((C7_bucket_cache_memoization .allowed .bucketExistsFalse [] "bkt" 1).2
      (by decide)).2.2.2.1 rfl⟩

/-! ## Validation phase (read_and_verify_file, process.py) and run order

main() runs read_and_verify_file before get_receipt_manifest_file_pointer
and before any checksum call, so a validation abort precedes manifest
creation and checksum work.  process_row prints one error per
unreadable row while the loop continues; bucket verification also
covers every row before the combined flags are checked.  The abort is
the bare Python exit(), i.e. SystemExit(None): process exit status 0. -/

inductive RunEvent where
  | errorReported (row : Nat)
  | exitedWith (code : Nat)
  | manifestCreated
  | checksumComputed
  | transferExecuted
deriving DecidableEq, Repr

/-- The run prefix of main() in process.py, driven by per-row
readability (rows), the provider flags, and the aggregated bucket
writability answers. -/
def mainTrace (rows : List Bool) (gsFlag awsFlag testMode gsW awsW : Bool) :
    List RunEvent :=
  let reported := ((List.range rows.length).filter
      (fun i => rows.getD i true = false)).map RunEvent.errorReported
  if !(rows.all id) || (gsFlag && !gsW) || (awsFlag && !awsW) then
    reported ++ [.exitedWith 0]
  else if testMode then
    reported ++ [.exitedWith 0]
  else
    reported ++ [.manifestCreated, .checksumComputed, .transferExecuted]

/-- C5, counterexample.  Two unreadable rows: both are reported in one
pass and the run stops before creating the manifest or computing a
checksum — but the exit status is 0 (bare exit()), not the claimed 1. -/
theorem C5_counterexample :
    mainTrace [false, false] false true false true true
      = [.errorReported 0, .errorReported 1, .exitedWith 0]
    ∧ RunEvent.exitedWith 1 ∉ mainTrace [false, false] false true false true true
    ∧ RunEvent.manifestCreated ∉ mainTrace [false, false] false true false true true
    ∧ RunEvent.checksumComputed ∉ mainTrace [false, false] false true false true true := by
  refine ⟨by decide, by decide, by decide, by decide⟩

/-- C5, amended.  If any input file is unreadable or any required
bucket is not writable, the run reports every unreadable row in one
pass and aborts before any checksum is computed and before the
receipt manifest file is created — but with exit status 0 (the bare
exit() call), not 1; exit status 1 is used only by the signal
handler. -/
theorem C5_validation_aborts_before_work (rows : List Bool)
    (gsFlag awsFlag testMode gsW awsW : Bool)
    (hfail : rows.all id = false ∨ (gsFlag && !gsW) = true
      ∨ (awsFlag && !awsW) = true) :
    mainTrace rows gsFlag awsFlag testMode gsW awsW
      = ((List.range rows.length).filter
          (fun i => rows.getD i true = false)).map RunEvent.errorReported
        ++ [.exitedWith 0]
    ∧ (∀ i, rows.getD i true = false →
        RunEvent.errorReported i ∈ mainTrace rows gsFlag awsFlag testMode gsW awsW)
    ∧ RunEvent.manifestCreated ∉ mainTrace rows gsFlag awsFlag testMode gsW awsW
    ∧ RunEvent.checksumComputed ∉ mainTrace rows gsFlag awsFlag testMode gsW awsW
    ∧ RunEvent.exitedWith 1 ∉ mainTrace rows gsFlag awsFlag testMode gsW awsW := by
  have hcond : (!(rows.all id) || (gsFlag && !gsW) || (awsFlag && !awsW)) = true := by
    rcases hfail with h | h | h <;> simp [h]
  have htr : mainTrace rows gsFlag awsFlag testMode gsW awsW
      = ((List.range rows.length).filter
          (fun i => rows.getD i true = false)).map RunEvent.errorReported
        ++ [.exitedWith 0] := by
    unfold mainTrace
    rw [hcond]
    simp
  refine ⟨htr, ?_, ?_, ?_, ?_⟩
  · intro i hi
    rw [htr]
    refine List.mem_append_left _ (List.mem_map.mpr ⟨i, ?_, rfl⟩)
    refine List.mem_filter.mpr ⟨List.mem_range.mpr ?_, by simp only [decide_eq_true_eq]; exact hi⟩
    by_contra hlen
    push_neg at hlen
    rw [List.getD_eq_default _ _ hlen] at hi
    cases hi
  · rw [htr]
    intro hmem
    rcases List.mem_append.mp hmem with h | h
    · obtain ⟨a, _, ha⟩ := List.mem_map.mp h
      cases ha
    · simp at h
  · rw [htr]
    intro hmem
    rcases List.mem_append.mp hmem with h | h
    · obtain ⟨a, _, ha⟩ := List.mem_map.mp h
      cases ha
    · simp at h
  · rw [htr]
    intro hmem
    rcases List.mem_append.mp hmem with h | h
    · obtain ⟨a, _, ha⟩ := List.mem_map.mp h
      cases ha
    · simp at h

/-- Witness for C5: one readable and one unreadable row with writable
buckets still aborts, reporting row 1. -/
theorem C5_validation_aborts_before_work_witness :
    (List.all [true, false] id = false
      ∨ (false && !true) = true ∨ (true && !true) = true)
    ∧ mainTrace [true, false] false true false true true
        = [.errorReported 1, .exitedWith 0]
    ∧ RunEvent.errorReported 1 ∈ mainTrace [true, false] false true false true true :=
  ⟨Or.inl (by decide),
    by decide,
    (C5_validation_aborts_before_work [true, false] false true false true true
      (Or.inl (by decide))).2.1 1 (by decide)⟩

/-! ## Per-row transfer orchestration and error handling

Provider API calls can fail; boto raises ClientError (the type
process.py's AWS loop catches), the Google client raises BadRequest,
Forbidden or NotFound (the loops catch only BadRequest).  Each row
body is modelled as a function of its oracle outcomes returning the
row, whether a temp staging file was created, whether it was removed
on the way out, and whether the loop proceeds to the next row. -/

inductive ApiOutcome (α : Type) where
  | ok (a : α)
  | clientError
deriving DecidableEq, Repr

inductive GsApiErr where
  | badRequestErr
  | forbiddenErr
  | notFoundErr
deriving DecidableEq, Repr

structure RowStepResult where
  row : Row
  tmpCreated : Bool
  tmpRemoved : Bool
  proceeded : Bool
deriving DecidableEq, Repr

/-- calculate_s3_md5sum's row-level effect (process.py), for a local
path: resume with an existing digest short-circuits, otherwise
s3_md5sum is set to the computed tag. -/
def calc_s3_row (md5 : List Nat → List Nat) (chunkSize : Nat) (resume : Bool)
    (bytes : List Nat) (v : Row) : Row :=
  if resume && !(v.s3_md5sum == "") then v
  else { v with s3_md5sum := calculate_s3_md5sum md5 bytes chunkSize }

/-- The oracle for one pass of process.py's upload_to_aws loop body. -/
structure AwsRowOracle where
  tmpBytes : List Nat
  keyExists : ApiOutcome Bool
  uploadRes : ApiOutcome Unit
  headObj : ApiOutcome HeadResponse
deriving Repr

/-- One iteration of upload_to_aws (process.py): resume-skip, optional
gs-source staging download plus checksum recompute, existence check,
upload, head_object, metadata merge; botocore ClientError anywhere is
caught for the row, the finally block removes the staging file, and
the loop always proceeds. -/
def upload_to_aws_row (md5 : List Nat → List Nat)
    (readFile : String → List Nat) (chunkSize : Nat) (resume : Bool)
    (o : AwsRowOracle) (bucket : String) (v : Row) : RowStepResult :=
  if resume && strStarts v.s3_path "s3://" then ⟨v, false, false, true⟩
  else
    let tmpCreated := strStarts v.input_file_path "gs://"
    let v := if tmpCreated then calc_s3_row md5 chunkSize resume o.tmpBytes v else v
    let key := s3KeyFor v
    match o.keyExists with
    | .clientError => ⟨v, tmpCreated, tmpCreated, true⟩
    | .ok true =>
        match o.headObj with
        | .clientError => ⟨v, tmpCreated, tmpCreated, true⟩
        | .ok resp =>
            ⟨add_aws_manifest_metadata md5 readFile v resp
              ("s3://" ++ bucket ++ "/" ++ key), tmpCreated, tmpCreated, true⟩
    | .ok false =>
        match o.uploadRes with
        | .clientError => ⟨v, tmpCreated, tmpCreated, true⟩
        | .ok _ =>
            match o.headObj with
            | .clientError => ⟨v, tmpCreated, tmpCreated, true⟩
            | .ok resp =>
                ⟨add_aws_manifest_metadata md5 readFile v resp
                  ("s3://" ++ bucket ++ "/" ++ key), tmpCreated, tmpCreated, true⟩

/-- Did the modelled try block raise a ClientError on the path it
actually took? -/
def awsStepFailed (o : AwsRowOracle) : Bool :=
  match o.keyExists with
  | .clientError => true
  | .ok true => decide (o.headObj = .clientError)
  | .ok false =>
      decide (o.uploadRes = .clientError) || decide (o.headObj = .clientError)

/-- One iteration of upload_to_gcloud (process.py): resume-skip,
optional s3-source staging download, blob existence check, upload and
crc32c verification, metadata merge.  Only BadRequest is caught (the
except clause clears the three gs destination fields); Forbidden and
NotFound escape the loop, which the Except error models. -/
def upload_to_gcloud_row (md5 : List Nat → List Nat)
    (readFile : String → List Nat) (resume : Bool)
    (oExists : Except GsApiErr Bool) (oBlob : Except GsApiErr Blob)
    (gs_path : String) (v : Row) : Except GsApiErr RowStepResult :=
  if resume && strStarts v.gs_path "gs://" then .ok ⟨v, false, false, true⟩
  else
    let tmpCreated := strStarts v.input_file_path "s3://"
    let tryBlock : Except GsApiErr Row := do
      let ex ← oExists
      if ex then
        let b ← oBlob
        pure (add_gs_manifest_metadata md5 readFile v b gs_path v.input_file_path)
      else
        let b ← oBlob
        if v.gs_crc32c == b.crc32c then
          pure (add_gs_manifest_metadata md5 readFile v b gs_path v.input_file_path)
        else
          pure v
    match tryBlock with
    | .ok v2 => .ok ⟨v2, tmpCreated, tmpCreated, true⟩
    | .error .badRequestErr =>
        .ok ⟨{ v with gs_path := "", gs_modified_date := "", gs_file_size := "" },
          tmpCreated, tmpCreated, true⟩
    | .error e => .error e

/-- Python str.replace via fuel-bounded recursion on the char list. -/
def replaceAllAux (pat repl : List Char) : Nat → List Char → List Char
  | 0, l => l
  | _ + 1, [] => []
  | fuel + 1, c :: rest =>
      if pat.isPrefixOf (c :: rest) && !pat.isEmpty then
        repl ++ replaceAllAux pat repl fuel ((c :: rest).drop pat.length)
      else
        c :: replaceAllAux pat repl fuel rest

def strReplace (s pat repl : String) : String :=
  String.mk (replaceAllAux pat.data repl.data s.data.length s.data)

/-- path_in_aws_bucket (process_directory.py): unlike the localdir
variant there is no checksum gate — any object under the prefix
becomes the row's destination. -/
def dir_path_in_aws_bucket (md5 : List Nat → List Nat)
    (readFile : String → List Nat) (bucket_name : String)
    (probe : BucketProbe) (path : String) (v : Row) : Row × Bool :=
  match probe.keys.filter (fun k => strStarts k path) with
  | [] => (v, false)
  | k :: _ =>
      (dir_add_aws_manifest_metadata md5 readFile v probe.resp
        ("s3://" ++ bucket_name ++ "/" ++ k), true)

/-- One iteration of upload_to_aws (process_directory.py): the
resume-skip re-derives the identifier from the persisted path; a
Google source below the max download size stages into a temp file; the
finally block only resets temp_s3_file_key — the staging file is never
removed.  ClientError is caught per row. -/
def dir_upload_to_aws_row (md5 : List Nat → List Nat)
    (readFile : String → List Nat) (resume : Bool) (maxDownloadSize : Nat)
    (gsFileSize : Nat) (probe : BucketProbe) (uploadRes : ApiOutcome Unit)
    (headObj : ApiOutcome HeadResponse) (uuid : String) (bucket : String)
    (v : Row) : RowStepResult :=
  if resume && strStarts v.s3_path "s3://" then
    ⟨dir_add_drs_uri_from_path v v.s3_path, false, false, true⟩
  else
    let gsSource := strStarts v.input_file_path "gs://"
    let tmpCreated := gsSource && decide (gsFileSize ≤ maxDownloadSize)
    match dir_path_in_aws_bucket md5 readFile bucket probe v.s3_md5sum v with
    | (v2, true) => ⟨v2, tmpCreated, false, true⟩
    | (v2, false) =>
        let v3 := dir_add_new_drs_uri uuid v2
        let drs_uri_in_path :=
          strReplace v3.ga4gh_drs_uri "drs://dg.4503:dg.4503%2F" ""
        let s3_file := v3.s3_md5sum ++ "/" ++ drs_uri_in_path ++ "/"
          ++ basename v3.input_file_path
        match uploadRes with
        | .clientError => ⟨v3, tmpCreated, false, true⟩
        | .ok _ =>
            match headObj with
            | .clientError => ⟨v3, tmpCreated, false, true⟩
            | .ok resp =>
                ⟨dir_add_aws_manifest_metadata md5 readFile v3 resp
                  ("s3://" ++ bucket ++ "/" ++ s3_file), tmpCreated, false, true⟩

theorem calc_s3_row_dest (md5 : List Nat → List Nat) (cs : Nat) (resume : Bool)
    (bytes : List Nat) (v : Row) :
    (calc_s3_row md5 cs resume bytes v).s3_path = v.s3_path
    ∧ (calc_s3_row md5 cs resume bytes v).s3_modified_date = v.s3_modified_date
    ∧ (calc_s3_row md5 cs resume bytes v).s3_file_size = v.s3_file_size := by
  unfold calc_s3_row
  split <;> exact ⟨rfl, rfl, rfl⟩

def rowC9 : Row := { input_file_path := "gs://src/f.bin", s3_md5sum := "abc" }

def respC9 : HeadResponse := ⟨5, "\"abc\"", "2021-01-01 00:00:00+00:00"⟩

/-- C9, counterexample.  In process_directory.py's upload_to_aws a
Google-source row below the max download size stages the object into a
local temp file, and the finally block only resets temp_s3_file_key:
the staging file is never removed, on success or failure.  And in
process.py's upload_to_gcloud a Forbidden error from the provider is
not caught per row — it escapes the loop instead of letting the
orchestrator proceed to the next row. -/
theorem C9_counterexample :
    (dir_upload_to_aws_row md5dummy emptyReadFile false 100 50 probeEmpty
      (.ok ()) (.ok respC9) "u" "bkt" rowC9).tmpCreated = true
    ∧ (dir_upload_to_aws_row md5dummy emptyReadFile false 100 50 probeEmpty
      (.ok ()) (.ok respC9) "u" "bkt" rowC9).tmpRemoved = false
    ∧ upload_to_gcloud_row md5dummy emptyReadFile false
        (.error .forbiddenErr) (.error .forbiddenErr) "gs://bkt/x" rowC9
      = .error .forbiddenErr := by
  refine ⟨by decide, by decide, rfl⟩

/-- C9, amended.  Errors of the caught types are row-local: in
process.py's AWS loop any ClientError on the executed path leaves the
row's destination descriptor fully empty, the staging file (when one
was made for a Google source) is always removed by the finally block,
and the loop proceeds; in process.py's Google loop a BadRequest is
caught, the three gs destination fields are cleared together, the
staging file is removed and the loop proceeds — but Forbidden or
NotFound escape the loop; and in process_directory.py's AWS loop the
error is likewise caught per row but the staging file is never
removed. -/
theorem C9_row_error_handling (md5 : List Nat → List Nat)
    (readFile : String → List Nat) (chunkSize : Nat) (resume : Bool)
    (o : AwsRowOracle) (bucket : String) (v w : Row)
    (oBlob : Except GsApiErr Blob) (gs_path : String) (e : GsApiErr)
    (maxDL gsSz : Nat) (probe : BucketProbe) (dup : ApiOutcome Unit)
    (dhead : ApiOutcome HeadResponse) (uuid : String) :
    ((upload_to_aws_row md5 readFile chunkSize resume o bucket v).tmpRemoved
        = (upload_to_aws_row md5 readFile chunkSize resume o bucket v).tmpCreated
      ∧ (upload_to_aws_row md5 readFile chunkSize resume o bucket v).proceeded = true)
    ∧ (awsStepFailed o = true →
        v.s3_path = "" → v.s3_modified_date = "" → v.s3_file_size = "" →
        (upload_to_aws_row md5 readFile chunkSize resume o bucket v).row.s3_path = ""
        ∧ (upload_to_aws_row md5 readFile chunkSize resume o bucket v).row.s3_modified_date = ""
        ∧ (upload_to_aws_row md5 readFile chunkSize resume o bucket v).row.s3_file_size = "")
    ∧ ((resume && strStarts w.gs_path "gs://") = false →
        upload_to_gcloud_row md5 readFile resume (.error .badRequestErr)
          oBlob gs_path w
        = .ok ⟨{ w with gs_path := "", gs_modified_date := "", gs_file_size := "" },
            strStarts w.input_file_path "s3://",
            strStarts w.input_file_path "s3://", true⟩)
    ∧ (e ≠ .badRequestErr → (resume && strStarts w.gs_path "gs://") = false →
        upload_to_gcloud_row md5 readFile resume (.error e) oBlob gs_path w
          = .error e)
    ∧ ((dir_upload_to_aws_row md5 readFile resume maxDL gsSz probe dup dhead
          uuid bucket v).tmpRemoved = false
      ∧ (dir_upload_to_aws_row md5 readFile resume maxDL gsSz probe dup dhead
          uuid bucket v).proceeded = true) := by
  obtain ⟨tb, ke, ur, ho⟩ := o
  refine ⟨?_, ?_, ?_, ?_, ?_⟩
  · unfold upload_to_aws_row
    dsimp only
    split
    · exact ⟨rfl, rfl⟩
    · cases ke with
      | clientError => exact ⟨rfl, rfl⟩
      | ok b =>
        cases b
        · cases ur with
          | clientError => exact ⟨rfl, rfl⟩
          | ok u =>
            cases ho with
            | clientError => exact ⟨rfl, rfl⟩
            | ok resp => exact ⟨rfl, rfl⟩
        · cases ho with
          | clientError => exact ⟨rfl, rfl⟩
          | ok resp => exact ⟨rfl, rfl⟩
  · intro hfail h1 h2 h3
    unfold upload_to_aws_row
    dsimp only
    split
    · exact ⟨h1, h2, h3⟩
    · have hdest :
          ((if strStarts v.input_file_path "gs://" then
              calc_s3_row md5 chunkSize resume tb v else v).s3_path = ""
          ∧ (if strStarts v.input_file_path "gs://" then
              calc_s3_row md5 chunkSize resume tb v else v).s3_modified_date = ""
          ∧ (if strStarts v.input_file_path "gs://" then
              calc_s3_row md5 chunkSize resume tb v else v).s3_file_size = "") := by
        split
        · have := calc_s3_row_dest md5 chunkSize resume tb v
          exact ⟨this.1.trans h1, this.2.1.trans h2, this.2.2.trans h3⟩
        · exact ⟨h1, h2, h3⟩
      unfold awsStepFailed at hfail
      cases ke with
      | clientError => exact hdest
      | ok b =>
        cases b
        · dsimp only at hfail
          rcases Bool.or_eq_true_iff.mp hfail with hu | hh
          · have : ur = .clientError := of_decide_eq_true hu
            subst this
            exact hdest
          · have : ho = .clientError := of_decide_eq_true hh
            subst this
            cases ur with
            | clientError => exact hdest
            | ok u => exact hdest
        · dsimp only at hfail
          have : ho = .clientError := of_decide_eq_true hfail
          subst this
          exact hdest
  · intro hguard
    unfold upload_to_gcloud_row
    simp only [hguard]
    rfl
  · intro hne hguard
    unfold upload_to_gcloud_row
    simp only [hguard]
    cases e with
    | badRequestErr => exact absurd rfl hne
    | forbiddenErr => rfl
    | notFoundErr => rfl
  · unfold dir_upload_to_aws_row
    dsimp only
    split
    · exact ⟨rfl, rfl⟩
    · cases hsplit : dir_path_in_aws_bucket md5 readFile bucket probe v.s3_md5sum v with
      | mk v2 found =>
        cases found
        · cases dup with
          | clientError => exact ⟨rfl, rfl⟩
          | ok u =>
            cases dhead with
            | clientError => exact ⟨rfl, rfl⟩
            | ok resp => exact ⟨rfl, rfl⟩
        · exact ⟨rfl, rfl⟩

/-- Witness for C9 at concrete inputs: a ClientError existence check
on a Google-source row leaves the destination empty with the temp file
removed, BadRequest clears the gs fields, Forbidden propagates, and
the directory variant never removes its staging file. -/
theorem C9_row_error_handling_witness :
    ((upload_to_aws_row md5dummy emptyReadFile 2 false
        ⟨[1], .clientError, .ok (), .ok respC9⟩ "bkt" rowC9).row.s3_path = ""
      ∧ (upload_to_aws_row md5dummy emptyReadFile 2 false
        ⟨[1], .clientError, .ok (), .ok respC9⟩ "bkt" rowC9).row.s3_modified_date = ""
      ∧ (upload_to_aws_row md5dummy emptyReadFile 2 false
        ⟨[1], .clientError, .ok (), .ok respC9⟩ "bkt" rowC9).row.s3_file_size = "")
    ∧ upload_to_gcloud_row md5dummy emptyReadFile false (.error .badRequestErr)
        (.error .badRequestErr) "gs://bkt/x" rowC9
      = .ok ⟨{ rowC9 with gs_path := "", gs_modified_date := "", gs_file_size := "" },
          false, false, true⟩
    ∧ upload_to_gcloud_row md5dummy emptyReadFile false (.error .notFoundErr)
        (.error .notFoundErr) "gs://bkt/x" rowC9 = .error .notFoundErr :=
  ⟨(C9_row_error_handling md5dummy emptyReadFile 2 false
      ⟨[1], .clientError, .ok (), .ok respC9⟩ "bkt" rowC9 rowC9
      (.error .badRequestErr) "gs://bkt/x" .notFoundErr 100 50 probeEmpty
      (.ok ()) (.ok respC9) "u").2.1 (by decide) rfl rfl rfl,
    (C9_row_error_handling md5dummy emptyReadFile 2 false
      ⟨[1], .clientError, .ok (), .ok respC9⟩ "bkt" rowC9 rowC9
      (.error .badRequestErr) "gs://bkt/x" .notFoundErr 100 50 probeEmpty
      (.ok ()) (.ok respC9) "u").2.2.1 (by decide),
    (C9_row_error_handling md5dummy emptyReadFile 2 false
      ⟨[1], .clientError, .ok (), .ok respC9⟩ "bkt" rowC9 rowC9
      (.error .notFoundErr) "gs://bkt/x" .notFoundErr 100 50 probeEmpty
      (.ok ()) (.ok respC9) "u").2.2.2.1 (by decide) (by decide)⟩

/-! ## The md5sum field across all row-mutating operations (C10) -/

/-- Every operation in the three scripts that can write the md5sum
field, with the provider data it consumes. -/
inductive RowOp where
  | verifyS3Op (found : Bool) (resp : HeadResponse)
  | verifyGsOp (found : Bool) (blob : Blob)
  | addAwsMetaOp (resp : HeadResponse) (path : String)
  | localdirAddAwsMetaOp (uuid : String) (resp : HeadResponse) (path : String)
  | dirAddAwsMetaOp (resp : HeadResponse) (path : String)
  | addGsMetaOp (blob : Blob) (gs_path input_path : String)
  | dirAddGsMetaOp (uuid : String) (blob : Blob) (gs_path input_path : String)
  | localdirCalcS3SmallOp
  | calcS3Op (bytes : List Nat) (chunkSize : Nat)
  | handleUploadOp (uuid : String) (resp : HeadResponse) (bucket key : String)

/-- Apply one operation to a row. -/
def applyRowOp (md5 : List Nat → List Nat) (readFile : String → List Nat)
    (b64decode : String → List Nat) : RowOp → Row → Row
  | .verifyS3Op found resp, v => (verify_s3_file v found resp).1
  | .verifyGsOp found blob, v => (verify_gs_file v found blob).1
  | .addAwsMetaOp resp path, v => add_aws_manifest_metadata md5 readFile v resp path
  | .localdirAddAwsMetaOp uuid resp path, v =>
      localdir_add_aws_manifest_metadata md5 readFile uuid v resp path
  | .dirAddAwsMetaOp resp path, v => dir_add_aws_manifest_metadata md5 readFile v resp path
  | .addGsMetaOp blob gs_path input_path, v =>
      add_gs_manifest_metadata md5 readFile v blob gs_path input_path
  | .dirAddGsMetaOp uuid blob gs_path input_path, v =>
      dir_add_gs_manifest_metadata md5 readFile b64decode uuid v blob gs_path input_path
  | .localdirCalcS3SmallOp, v =>
      let m := calculate_md5sum md5 (readFile v.input_file_path)
      { v with s3_md5sum := m, md5sum := m }
  | .calcS3Op bytes chunkSize, v =>
      { v with s3_md5sum := calculate_s3_md5sum md5 bytes chunkSize }
  | .handleUploadOp uuid resp bucket key, v =>
      handle_aws_file_upload md5 readFile uuid v resp bucket key

/-- Provider well-formedness: a reported base64 md5 hash really is
base64 (standard alphabet, no dash). -/
def blobWF (b : Blob) : Prop :=
  ∀ h, b.md5_hash = some h → isB64 h = true

def rowOpWF : RowOp → Prop
  | .verifyGsOp _ b => blobWF b
  | .addGsMetaOp b _ _ => blobWF b
  | _ => True

theorem dashFree_ne (a t : String) (ha : dashFree a = true)
    (ht : dashFree t = false) : a ≠ t := by
  intro h
  rw [h, ht] at ha
  cases ha

/-- The drs writers never touch md5sum. -/
theorem drs_md5sum_invariant (uuid path : String) (v : Row) :
    (add_new_drs_uri uuid v).md5sum = v.md5sum
    ∧ (add_drs_uri_from_path v path).md5sum = v.md5sum
    ∧ (dir_add_new_drs_uri uuid v).md5sum = v.md5sum
    ∧ (dir_add_drs_uri_from_path v path).md5sum = v.md5sum := by
  unfold add_new_drs_uri add_drs_uri_from_path dir_add_new_drs_uri
    dir_add_drs_uri_from_path
  refine ⟨?_, ?_, ?_, ?_⟩ <;> (split <;> rfl)

theorem drs_guard_md5_slash (uuid : String) (f : Row)
    (h : dashFree f.md5sum = true) :
    dashFree ((if strStarts f.ga4gh_drs_uri "drs://" then f
      else add_new_drs_uri uuid f).md5sum) = true := by
  split
  · exact h
  · rw [(drs_md5sum_invariant uuid "" f).1]
    exact h

theorem drs_guard_md5_dirnew (uuid : String) (f : Row)
    (h : dashFree f.md5sum = true) :
    dashFree ((if strStarts f.ga4gh_drs_uri "drs://" then f
      else dir_add_new_drs_uri uuid f).md5sum) = true := by
  split
  · exact h
  · rw [(drs_md5sum_invariant uuid "" f).2.2.1]
    exact h

theorem drs_guard_md5_dirpath (path : String) (f : Row)
    (h : dashFree f.md5sum = true) :
    dashFree ((if strStarts f.ga4gh_drs_uri "drs://" then f
      else dir_add_drs_uri_from_path f path).md5sum) = true := by
  split
  · exact h
  · rw [(drs_md5sum_invariant "" path f).2.2.2]
    exact h

theorem add_aws_manifest_metadata_md5sum (md5 : List Nat → List Nat)
    (readFile : String → List Nat) (v : Row) (resp : HeadResponse)
    (path : String) (hv : dashFree v.md5sum = true) :
    dashFree (add_aws_manifest_metadata md5 readFile v resp path).md5sum = true := by
  unfold add_aws_manifest_metadata
  dsimp only
  split
  · rename_i hguard
    split
    · exact bytesToHex_dashFree _
    · simpa using hguard
  · split
    · exact bytesToHex_dashFree _
    · simpa using hv

/-- C10, counterexample.  process.py's verify_gs_file copies
blob.md5_hash verbatim into md5sum: a base64-encoded digest such as
XrY7u+Ae7tCTyyK7j1rNww== — not the plain hex form the claim asserts is
the only possible non-empty content (it is still dash-free). -/
theorem C10_counterexample :
    (verify_gs_file { input_file_path := "gs://b/f" } true
      ⟨"AAAAAA==", some "XrY7u+Ae7tCTyyK7j1rNww==", "t", 3⟩).1.md5sum
      = "XrY7u+Ae7tCTyyK7j1rNww=="
    ∧ isHexString "XrY7u+Ae7tCTyyK7j1rNww==" = false
    ∧ dashFree "XrY7u+Ae7tCTyyK7j1rNww==" = true := by
  refine ⟨by decide, by decide, by decide⟩

/-- C10, amended.  Every path that promotes a provider entity tag into
md5sum first checks the tag has no dash, and every other writer stores
either a locally computed hex digest or a provider-reported base64
md5 — so across all operations a dash-free md5sum stays dash-free and
in particular never becomes a composite {hash}-{N} tag; but it is not
always hex: the Google paths of process.py store the base64 form. -/
theorem C10_md5sum_never_composite (md5 : List Nat → List Nat)
    (readFile : String → List Nat) (b64decode : String → List Nat)
    (op : RowOp) (v : Row) (hv : dashFree v.md5sum = true)
    (hwf : rowOpWF op) :
    dashFree ((applyRowOp md5 readFile b64decode op v).md5sum) = true
    ∧ ∀ t, dashFree t = false →
        (applyRowOp md5 readFile b64decode op v).md5sum ≠ t := by
  have main : dashFree ((applyRowOp md5 readFile b64decode op v).md5sum) = true := by
    cases op with
    | verifyS3Op found resp =>
      unfold applyRowOp verify_s3_file
      dsimp only
      split
      · split
        · rename_i hguard
          simpa using hguard
        · simpa using hv
      · simpa using hv
    | verifyGsOp found blob =>
      unfold applyRowOp verify_gs_file
      dsimp only
      split
      · cases hb : blob.md5_hash with
        | none => simpa [hb] using hv
        | some h =>
          simp only [hb]
          exact isB64_dashFree h (hwf h hb)
      · simpa using hv
    | addAwsMetaOp resp path =>
      exact add_aws_manifest_metadata_md5sum md5 readFile v resp path hv
    | localdirAddAwsMetaOp uuid resp path =>
      unfold applyRowOp localdir_add_aws_manifest_metadata
      dsimp only
      exact drs_guard_md5_slash uuid _
        (add_aws_manifest_metadata_md5sum md5 readFile v resp path hv)
    | dirAddAwsMetaOp resp path =>
      unfold applyRowOp dir_add_aws_manifest_metadata
      dsimp only
      exact drs_guard_md5_dirpath path _
        (add_aws_manifest_metadata_md5sum md5 readFile v resp path hv)
    | addGsMetaOp blob gs_path input_path =>
      unfold applyRowOp add_gs_manifest_metadata
      dsimp only
      split
      · cases hb : blob.md5_hash with
        | none => exact bytesToHex_dashFree _
        | some h => exact isB64_dashFree h (hwf h hb)
      · simpa using hv
    | dirAddGsMetaOp uuid blob gs_path input_path =>
      unfold applyRowOp dir_add_gs_manifest_metadata
      dsimp only
      apply drs_guard_md5_dirnew
      split
      · cases hb : blob.md5_hash with
        | none => simp only [hb]; exact bytesToHex_dashFree _
        | some h => simp only [hb]; exact bytesToHex_dashFree _
      · simpa using hv
    | localdirCalcS3SmallOp =>
      unfold applyRowOp
      exact bytesToHex_dashFree _
    | calcS3Op bytes chunkSize =>
      unfold applyRowOp
      dsimp only
      simpa using hv
    | handleUploadOp uuid resp bucket key =>
      unfold applyRowOp handle_aws_file_upload
      dsimp only
      split
      · unfold localdir_add_aws_manifest_metadata
        dsimp only
        exact drs_guard_md5_slash uuid _
          (add_aws_manifest_metadata_md5sum md5 readFile v resp
            ("s3://" ++ bucket ++ "/" ++ key) hv)
      · simpa using hv
  exact ⟨main, fun t ht => dashFree_ne _ t main ht⟩

/-- Witness for C10 at concrete inputs: a composite ETag x-2 is not
promoted — the row keeps a dash-free md5sum (here the local hex
fallback) that cannot equal the composite tag. -/
theorem C10_md5sum_never_composite_witness :
    dashFree ((applyRowOp md5dummy emptyReadFile emptyReadFile
        (.addAwsMetaOp ⟨3, "\"x-2\"", "t"⟩ "s3://b/k")
        { input_file_path := "/f" }).md5sum) = true
    ∧ (applyRowOp md5dummy emptyReadFile emptyReadFile
        (.addAwsMetaOp ⟨3, "\"x-2\"", "t"⟩ "s3://b/k")
        { input_file_path := "/f" }).md5sum ≠ "x-2"
    ∧ (applyRowOp md5dummy emptyReadFile emptyReadFile
        (.addAwsMetaOp ⟨3, "\"x-2\"", "t"⟩ "s3://b/k")
        { input_file_path := "/f" }).md5sum
      = "00000000000000000000000000000000" :=
  ⟨(C10_md5sum_never_composite md5dummy emptyReadFile emptyReadFile
      (.addAwsMetaOp ⟨3, "\"x-2\"", "t"⟩ "s3://b/k") { input_file_path := "/f" }
      (by decide) trivial).1,
    (C10_md5sum_never_composite md5dummy emptyReadFile emptyReadFile
      (.addAwsMetaOp ⟨3, "\"x-2\"", "t"⟩ "s3://b/k") { input_file_path := "/f" }
      (by decide) trivial).2 "x-2" (by decide),
    by decide⟩
